import Mathlib

/-!
Verification of the reference-query glue code of the Open-Assistant fragment:
the Next.js API route handler (`src/unnamed/part_001`, first document), the
`useReferences` SWR hook (same file, second document), and the
`ReferencesButton` component (`src/website/src/components/Buttons/References.tsx`).

The route handler is shallowly embedded as a pure function over an explicit
environment of collaborators (`getLanguageFromRequest`, `getBackendUserCore`,
`createApiClientFromUser`, `fetchReferences`), returning the produced response
(or the propagated thrown value) together with a trace of backend calls.
-/

namespace OARefs

/-- A value of `req.query[k]` in Next.js: a parsed query-string parameter is
either a single string or an array of strings (when supplied repeatedly). -/
inductive QueryVal where
  | str (s : String)
  | arr (ss : List String)
deriving DecidableEq, Repr

/-- The part of a `NextApiRequest` the handler reads: the HTTP method, the
`query` entry of `req.query` (absent, string, or array), and the remaining
query parameters (never inspected by the handler). -/
structure Request where
  method : String
  queryQuery : Option QueryVal
  otherParams : List (String × QueryVal)
deriving DecidableEq, Repr

/-- The token handed to the inner handler by the `withoutRole("banned", ...)`
wrapper; the handler only reads `token.sub`. -/
structure Token where
  sub : String
deriving DecidableEq, Repr

/-- The backend user record returned by `getBackendUserCore`. Its shape is
opaque to the handler; one field suffices for the embedding. -/
structure User where
  id : String
deriving DecidableEq, Repr

/-- The backend API client built by `createApiClientFromUser`. Opaque. -/
structure Client where
  cid : Nat
deriving DecidableEq, Repr

/-- The references payload returned by the backend. Opaque to the route. -/
structure RefData where
  payload : String
deriving DecidableEq, Repr

/-- A thrown JavaScript value (the route never inspects it). -/
structure Err where
  msg : String
deriving DecidableEq, Repr

/-- The response body: `res.end(text)` versus `res.json({error: msg})` versus
`res.json(references)`. -/
inductive Body where
  | text (s : String)
  | jsonError (msg : String)
  | jsonData (d : RefData)
deriving DecidableEq, Repr

/-- The observable response: status code, the `Allow` header if set, body. -/
structure Response where
  status : Nat
  allowHeader : Option (List String)
  body : Body
deriving DecidableEq, Repr

/-- One backend-visible effect of the handler. -/
inductive Call where
  | getBackendUserCore (sub : String)
  | createApiClientFromUser (u : User)
  | fetchReferences (c : Client) (query : String) (lang : String)
deriving DecidableEq, Repr

/-- The collaborators the route calls into. `getBackendUserCore` and
`createApiClientFromUser` may throw (modelled by `Except Err`), and
`fetchReferences` may reject. -/
structure Env where
  getLanguageFromRequest : Request → String
  getBackendUserCore : String → Except Err User
  createApiClientFromUser : User → Except Err Client
  fetchReferences : Client → String → String → Except Err RefData

/-- The inner route handler of `src/unnamed/part_001` (the function passed to
`withoutRole("banned", ...)`).  Returns the response produced (`Except.ok`) or
the uncaught thrown value (`Except.error`), paired with the list of backend
calls made, in order.

The `query` guard mirrors `if (!query || typeof query !== 'string')`:
an absent parameter is falsy, the empty string is falsy, and an array fails
the `typeof` test, so only a nonempty string proceeds. -/
def handler (env : Env) (req : Request) (token : Token) :
    Except Err Response × List Call :=
  if req.method ≠ "GET" then
    (Except.ok { status := 405, allowHeader := some ["GET"],
                 body := Body.text ("Method " ++ req.method ++ " Not Allowed") }, [])
  else
    match req.queryQuery with
    | some (QueryVal.str s) =>
      if s = "" then
        (Except.ok { status := 400, allowHeader := none,
                     body := Body.jsonError "Query parameter is required" }, [])
      else
        let lang := env.getLanguageFromRequest req
        match env.getBackendUserCore token.sub with
        | Except.error e => (Except.error e, [Call.getBackendUserCore token.sub])
        | Except.ok user =>
          match env.createApiClientFromUser user with
          | Except.error e =>
            (Except.error e,
             [Call.getBackendUserCore token.sub, Call.createApiClientFromUser user])
          | Except.ok oasstApiClient =>
            let trace := [Call.getBackendUserCore token.sub,
                          Call.createApiClientFromUser user,
                          Call.fetchReferences oasstApiClient s lang]
            match env.fetchReferences oasstApiClient s lang with
            | Except.ok references =>
              (Except.ok { status := 200, allowHeader := none,
                           body := Body.jsonData references }, trace)
            | Except.error _ =>
              (Except.ok { status := 500, allowHeader := none,
                           body := Body.jsonError "Failed to fetch references" }, trace)
    | _ =>
      (Except.ok { status := 400, allowHeader := none,
                   body := Body.jsonError "Query parameter is required" }, [])

/-- The SWR cache key computed by `useReferences`:
`query ? `/api/references?query=${query}&lang=${locale}` : null`.
The hook argument `query` is absent (`none`) or a string; an absent or empty
string is falsy, so the key is `null` and SWR issues no fetch. -/
def useReferencesKey (query : Option String) (locale : String) : Option String :=
  match query with
  | none => none
  | some q =>
    if q = "" then none
    else some ("/api/references?query=" ++ q ++ "&lang=" ++ locale)

/-- Whether `useReferences` issues a fetch: SWR fetches exactly when the key
is non-null. -/
def issuesFetch (query : Option String) (locale : String) : Bool :=
  (useReferencesKey query locale).isSome

/-- An opaque click handler identity (the component never calls or wraps it). -/
structure Handler where
  hid : Nat
deriving DecidableEq, Repr

/-- The props a caller passes to `ReferencesButton`: the destructured
`children` and `onClick`, plus the rest props that may or may not carry
`size` and `variant`. -/
structure Props where
  children : String
  onClick : Handler
  size : Option String
  variant : Option String
deriving DecidableEq, Repr

/-- The props the rendered `Button` element ends up with. -/
structure RenderedButton where
  size : String
  variant : String
  onClick : Handler
  children : String
deriving DecidableEq, Repr

/-- `ReferencesButton`: renders `<Button size="lg" variant="solid"
onClick={onClick} {...props}>{children}</Button>`.  JSX spread semantics:
a key present in `props` (spread last) overrides the literal attributes
written before it; `onClick` was destructured out of `props`, so the
`onClick` attribute is exactly the caller-supplied handler. -/
def referencesButton (p : Props) : RenderedButton :=
  { size := match p.size with | some s => s | none => "lg",
    variant := match p.variant with | some v => v | none => "solid",
    onClick := p.onClick,
    children := p.children }

/-- A benign environment for concrete evaluations: every collaborator
succeeds. -/
def envOk : Env :=
  { getLanguageFromRequest := fun _ => "en",
    getBackendUserCore := fun s => Except.ok { id := s },
    createApiClientFromUser := fun _ => Except.ok { cid := 0 },
    fetchReferences := fun _ _ _ => Except.ok { payload := "refs" } }

/-- An environment where resolving the backend user throws. -/
def envUserThrow : Env :=
  { envOk with getBackendUserCore := fun _ => Except.error { msg := "db down" } }

/-- An environment where building the backend client throws. -/
def envClientThrow : Env :=
  { envOk with createApiClientFromUser := fun _ => Except.error { msg := "no client" } }

/-- An environment where the backend fetch rejects. -/
def envFetchThrow : Env :=
  { envOk with fetchReferences := fun _ _ _ => Except.error { msg := "upstream 502" } }

/-- Claim C1: for every request whose HTTP method is not GET, the handler
returns 405 with body `Method <method> Not Allowed` and `Allow: GET`, making
no backend call, regardless of the query parameters. -/
theorem handler_non_get_405 (env : Env) (req : Request) (token : Token)
    (h : req.method ≠ "GET") :
    handler env req token =
      (Except.ok { status := 405, allowHeader := some ["GET"],
                   body := Body.text ("Method " ++ req.method ++ " Not Allowed") }, []) := by
  simp [handler, h]

/-- Witness for C1: a concrete POST request with a well-formed query still
gets the 405 response. -/
theorem handler_non_get_405_witness :
    ("POST" : String) ≠ "GET" ∧
    handler envOk
        { method := "POST", queryQuery := some (QueryVal.str "cats"), otherParams := [] }
        { sub := "alice" } =
      (Except.ok { status := 405, allowHeader := some ["GET"],
                   body := Body.text "Method POST Not Allowed" }, []) :=
  ⟨by decide,
   handler_non_get_405 envOk
     { method := "POST", queryQuery := some (QueryVal.str "cats"), otherParams := [] }
     { sub := "alice" } (by decide)⟩

/-- Claim C2: for every GET request whose `query` parameter is missing, an
array, or the empty string, the handler returns exactly the 400 response with
a descriptive error body (and hence no other status). -/
theorem handler_invalid_query_400 (env : Env) (req : Request) (token : Token)
    (hm : req.method = "GET")
    (hq : req.queryQuery = none ∨
          (∃ ss, req.queryQuery = some (QueryVal.arr ss)) ∨
          req.queryQuery = some (QueryVal.str "")) :
    handler env req token =
      (Except.ok { status := 400, allowHeader := none,
                   body := Body.jsonError "Query parameter is required" }, []) := by
  rcases hq with h | ⟨ss, h⟩ | h <;> simp [handler, hm, h]

/-- Witness for C2: a concrete GET request with the `query` parameter
supplied twice (parsed as an array) gets the 400 response. -/
theorem handler_invalid_query_400_witness :
    handler envOk
        { method := "GET", queryQuery := some (QueryVal.arr ["a", "b"]), otherParams := [] }
        { sub := "alice" } =
      (Except.ok { status := 400, allowHeader := none,
                   body := Body.jsonError "Query parameter is required" }, []) :=
  handler_invalid_query_400 envOk
    { method := "GET", queryQuery := some (QueryVal.arr ["a", "b"]), otherParams := [] }
    { sub := "alice" } rfl (Or.inr (Or.inl ⟨["a", "b"], rfl⟩))

/-- Claim C3: for every GET request with a nonempty string `query`, if user
resolution and client construction succeed and `fetchReferences` resolves
with data `d`, the handler responds 200 with body exactly `d`. -/
theorem handler_success_200 (env : Env) (req : Request) (token : Token)
    (s : String) (u : User) (c : Client) (d : RefData)
    (hm : req.method = "GET")
    (hq : req.queryQuery = some (QueryVal.str s))
    (hs : s ≠ "")
    (hu : env.getBackendUserCore token.sub = Except.ok u)
    (hc : env.createApiClientFromUser u = Except.ok c)
    (hf : env.fetchReferences c s (env.getLanguageFromRequest req) = Except.ok d) :
    (handler env req token).1 =
      Except.ok { status := 200, allowHeader := none, body := Body.jsonData d } := by
  simp [handler, hm, hq, hs, hu, hc, hf]

/-- Witness for C3: with the all-succeeding environment, a concrete valid
request yields 200 and the backend payload verbatim. -/
theorem handler_success_200_witness :
    (handler envOk
        { method := "GET", queryQuery := some (QueryVal.str "cats"), otherParams := [] }
        { sub := "alice" }).1 =
      Except.ok { status := 200, allowHeader := none,
                  body := Body.jsonData { payload := "refs" } } :=
  handler_success_200 envOk
    { method := "GET", queryQuery := some (QueryVal.str "cats"), otherParams := [] }
    { sub := "alice" } "cats" { id := "alice" } { cid := 0 } { payload := "refs" }
    rfl rfl (by decide) rfl rfl rfl

/-- Claim C4: for every GET request with a valid query, whenever
`fetchReferences` throws — whatever the thrown value `e` — the handler
responds 500 with the fixed body `{"error": "Failed to fetch references"}`;
the thrown content never reaches the response. -/
theorem handler_fetch_throw_500 (env : Env) (req : Request) (token : Token)
    (s : String) (u : User) (c : Client) (e : Err)
    (hm : req.method = "GET")
    (hq : req.queryQuery = some (QueryVal.str s))
    (hs : s ≠ "")
    (hu : env.getBackendUserCore token.sub = Except.ok u)
    (hc : env.createApiClientFromUser u = Except.ok c)
    (hf : env.fetchReferences c s (env.getLanguageFromRequest req) = Except.error e) :
    (handler env req token).1 =
      Except.ok { status := 500, allowHeader := none,
                  body := Body.jsonError "Failed to fetch references" } := by
  simp [handler, hm, hq, hs, hu, hc, hf]

/-- Witness for C4: a concrete rejecting backend produces the fixed 500 body,
with no trace of the thrown message `upstream 502`. -/
theorem handler_fetch_throw_500_witness :
    (handler envFetchThrow
        { method := "GET", queryQuery := some (QueryVal.str "cats"), otherParams := [] }
        { sub := "alice" }).1 =
      Except.ok { status := 500, allowHeader := none,
                  body := Body.jsonError "Failed to fetch references" } :=
  handler_fetch_throw_500 envFetchThrow
    { method := "GET", queryQuery := some (QueryVal.str "cats"), otherParams := [] }
    { sub := "alice" } "cats" { id := "alice" } { cid := 0 } { msg := "upstream 502" }
    rfl rfl (by decide) rfl rfl rfl

/-- Claim C5: for every GET request with a valid query (and successful user
and client resolution), the backend-call trace is exactly: resolve the user
from the token subject, build the client from that user, and call
`fetchReferences` once with the request's query string and the locale from
`getLanguageFromRequest` — whatever the fetch outcome. -/
theorem handler_fetch_called_once (env : Env) (req : Request) (token : Token)
    (s : String) (u : User) (c : Client)
    (hm : req.method = "GET")
    (hq : req.queryQuery = some (QueryVal.str s))
    (hs : s ≠ "")
    (hu : env.getBackendUserCore token.sub = Except.ok u)
    (hc : env.createApiClientFromUser u = Except.ok c) :
    (handler env req token).2 =
      [Call.getBackendUserCore token.sub,
       Call.createApiClientFromUser u,
       Call.fetchReferences c s (env.getLanguageFromRequest req)] := by
  cases hf : env.fetchReferences c s (env.getLanguageFromRequest req) <;>
    simp [handler, hm, hq, hs, hu, hc, hf]

/-- Witness for C5: the concrete trace on the all-succeeding environment. -/
theorem handler_fetch_called_once_witness :
    (handler envOk
        { method := "GET", queryQuery := some (QueryVal.str "cats"), otherParams := [] }
        { sub := "alice" }).2 =
      [Call.getBackendUserCore "alice",
       Call.createApiClientFromUser { id := "alice" },
       Call.fetchReferences { cid := 0 } "cats" "en"] :=
  handler_fetch_called_once envOk
    { method := "GET", queryQuery := some (QueryVal.str "cats"), otherParams := [] }
    { sub := "alice" } "cats" { id := "alice" } { cid := 0 }
    rfl rfl (by decide) rfl rfl

/-- Claim C6: for an absent or empty `query` the hook's cache key is `null`,
so it issues no fetch; for a nonempty query the key embeds the query and the
current locale and a fetch is issued. -/
theorem useReferences_fetch_condition (query : Option String) (locale : String) :
    ((query = none ∨ query = some "") →
       useReferencesKey query locale = none ∧ issuesFetch query locale = false) ∧
    (∀ q, query = some q → q ≠ "" →
       useReferencesKey query locale =
         some ("/api/references?query=" ++ q ++ "&lang=" ++ locale) ∧
       issuesFetch query locale = true) := by
  constructor
  · rintro (h | h) <;> simp [useReferencesKey, issuesFetch, h]
  · intro q hq hne
    simp [useReferencesKey, issuesFetch, hq, hne]

/-- Witness for C6: an empty query issues no fetch; the query `cats` with
locale `en` fetches under the expected key. -/
theorem useReferences_fetch_condition_witness :
    (useReferencesKey (some "") "en" = none ∧ issuesFetch (some "") "en" = false) ∧
    (useReferencesKey (some "cats") "en" =
       some "/api/references?query=cats&lang=en" ∧
     issuesFetch (some "cats") "en" = true) :=
  ⟨(useReferences_fetch_condition (some "") "en").1 (Or.inr rfl),
   (useReferences_fetch_condition (some "cats") "en").2 "cats" rfl (by decide)⟩

/-- Claim C7: for a fixed nonempty query, two distinct locales give two
distinct cache keys, so a locale change triggers an independent fetch. -/
theorem useReferences_locale_changes_key (q l1 l2 : String)
    (hq : q ≠ "") (hl : l1 ≠ l2) :
    useReferencesKey (some q) l1 ≠ useReferencesKey (some q) l2 := by
  simp only [useReferencesKey, if_neg hq]
  intro h
  apply hl
  have h2 : ("/api/references?query=" ++ q ++ "&lang=") ++ l1 =
      ("/api/references?query=" ++ q ++ "&lang=") ++ l2 := by
    have := Option.some.inj h
    simpa [String.append_assoc] using this
  have hd := congrArg String.data h2
  simp [String.data_append] at hd
  exact String.ext hd

/-- Witness for C7: the keys for locales `en` and `de` differ for query
`cats`. -/
theorem useReferences_locale_changes_key_witness :
    useReferencesKey (some "cats") "en" ≠ useReferencesKey (some "cats") "de" :=
  useReferences_locale_changes_key "cats" "en" "de" (by decide) (by decide)

/-- Claim C8: the try/catch covers only the fetch. For a GET request with a
valid query, if `getBackendUserCore` throws then the handler produces no
response and the thrown value propagates (after only the user-lookup call);
likewise if `createApiClientFromUser` throws, `fetchReferences` is never
reached and the value propagates. -/
theorem handler_resolution_throw_propagates (env : Env) (req : Request)
    (token : Token) (s : String) (e : Err)
    (hm : req.method = "GET")
    (hq : req.queryQuery = some (QueryVal.str s))
    (hs : s ≠ "") :
    (env.getBackendUserCore token.sub = Except.error e →
       handler env req token =
         (Except.error e, [Call.getBackendUserCore token.sub])) ∧
    (∀ u, env.getBackendUserCore token.sub = Except.ok u →
       env.createApiClientFromUser u = Except.error e →
       handler env req token =
         (Except.error e,
          [Call.getBackendUserCore token.sub, Call.createApiClientFromUser u])) := by
  constructor
  · intro hu
    simp [handler, hm, hq, hs, hu]
  · intro u hu hc
    simp [handler, hm, hq, hs, hu, hc]

/-- Witness for C8: with a throwing user lookup, a concrete valid request
makes the handler propagate the error with no response and no further
backend call. -/
theorem handler_resolution_throw_propagates_witness :
    handler envUserThrow
        { method := "GET", queryQuery := some (QueryVal.str "cats"), otherParams := [] }
        { sub := "alice" } =
      (Except.error { msg := "db down" }, [Call.getBackendUserCore "alice"]) :=
  (handler_resolution_throw_propagates envUserThrow
    { method := "GET", queryQuery := some (QueryVal.str "cats"), otherParams := [] }
    { sub := "alice" } "cats" { msg := "db down" } rfl rfl (by decide)).1 rfl

/-- Claim C9: every request answered with a 405 or a 400 makes no backend
call at all: the trace is empty, so no user lookup, no client construction
and no fetch occur. -/
theorem handler_405_400_no_backend_calls (env : Env) (req : Request)
    (token : Token) (r : Response)
    (h1 : (handler env req token).1 = Except.ok r)
    (h2 : r.status = 405 ∨ r.status = 400) :
    (handler env req token).2 = [] := by
  by_cases hm : req.method = "GET"
  · cases hqq : req.queryQuery with
    | none => simp [handler, hm, hqq]
    | some v =>
      cases v with
      | arr ss => simp [handler, hm, hqq]
      | str s =>
        by_cases hs : s = ""
        · simp [handler, hm, hqq, hs]
        · exfalso
          cases hu : env.getBackendUserCore token.sub with
          | error e => simp [handler, hm, hqq, hs, hu] at h1
          | ok u =>
            cases hc : env.createApiClientFromUser u with
            | error e => simp [handler, hm, hqq, hs, hu, hc] at h1
            | ok c =>
              cases hf : env.fetchReferences c s (env.getLanguageFromRequest req) with
              | ok d =>
                simp [handler, hm, hqq, hs, hu, hc, hf] at h1
                rcases h2 with h2 | h2 <;> rw [← h1] at h2 <;> simp at h2
              | error e =>
                simp [handler, hm, hqq, hs, hu, hc, hf] at h1
                rcases h2 with h2 | h2 <;> rw [← h1] at h2 <;> simp at h2
  · simp [handler, hm]

/-- Witness for C9: a concrete POST request is answered 405 and its trace is
empty. -/
theorem handler_405_400_no_backend_calls_witness :
    (handler envOk
        { method := "POST", queryQuery := none, otherParams := [] }
        { sub := "alice" }).2 = [] :=
  handler_405_400_no_backend_calls envOk
    { method := "POST", queryQuery := none, otherParams := [] }
    { sub := "alice" }
    { status := 405, allowHeader := some ["GET"],
      body := Body.text "Method POST Not Allowed" }
    rfl (Or.inl rfl)

/-- Claim C10: `ReferencesButton` forwards the caller-supplied `onClick`
unchanged, renders the children unchanged, and applies `size="lg"` and
`variant="solid"` only as defaults: a caller-supplied `size` or `variant`
(spread after the literal attributes) overrides them. The component is a
pure function of its props, so it holds no internal state. -/
theorem referencesButton_spec (p : Props) :
    (referencesButton p).onClick = p.onClick ∧
    (referencesButton p).children = p.children ∧
    (p.size = none → (referencesButton p).size = "lg") ∧
    (∀ s, p.size = some s → (referencesButton p).size = s) ∧
    (p.variant = none → (referencesButton p).variant = "solid") ∧
    (∀ v, p.variant = some v → (referencesButton p).variant = v) := by
  refine ⟨rfl, rfl, ?_, ?_, ?_, ?_⟩
  · intro h; simp [referencesButton, h]
  · intro s h; simp [referencesButton, h]
  · intro h; simp [referencesButton, h]
  · intro v h; simp [referencesButton, h]

/-- Witness for C10: with a caller-supplied `size="sm"` and no `variant`,
the rendered button keeps the caller's handler, overrides the size and
defaults the variant. -/
theorem referencesButton_spec_witness :
    (referencesButton
        { children := "Refs", onClick := { hid := 7 }, size := some "sm",
          variant := none }).onClick = { hid := 7 } ∧
    (referencesButton
        { children := "Refs", onClick := { hid := 7 }, size := some "sm",
          variant := none }).size = "sm" ∧
    (referencesButton
        { children := "Refs", onClick := { hid := 7 }, size := some "sm",
          variant := none }).variant = "solid" :=
  ⟨(referencesButton_spec
      { children := "Refs", onClick := { hid := 7 }, size := some "sm",
        variant := none }).1,
   (referencesButton_spec
      { children := "Refs", onClick := { hid := 7 }, size := some "sm",
        variant := none }).2.2.2.1 "sm" rfl,
   (referencesButton_spec
      { children := "Refs", onClick := { hid := 7 }, size := some "sm",
        variant := none }).2.2.2.2.1 rfl⟩

end OARefs
